import Mathlib

/-
Shallow embedding of src/wp.py (a Python 2 program building an inverted index
over a Wikipedia collection and answering TF-IDF cosine-similarity queries),
together with theorems settling the spec claims against it.

External collaborators are abstracted: the MeCab tokenizer is a parameter
tok : String → List Token, the transcendental math.log is a parameter
mlog : Nat → ℚ (in Python 2 the argument N / df is an integer, by floor
division), np.sqrt inside np.linalg.norm is a parameter sqrt : ℚ → ℚ, and the
implementation-defined iteration order of a Python set is a parameter
enum : Finset String → List String.
-/

namespace Wp

/-- Token produced by the MeCab tokenizer adapter: surface form, whether the
node is a normal node (natto node.is_nor), and the first comma-separated
feature, which is the part-of-speech class. -/
structure Token where
  surface : String
  isNor : Bool
  firstFeature : String
deriving DecidableEq, Repr

/-- Filter applied at wp.py lines 209-212 and 299-301: a token is used only
when node.is_nor() holds and its first feature is the noun tag 名詞. -/
def nounFilter (n : Token) : Bool :=
  n.isNor && n.firstFeature == "名詞"

/-- Rows of the postings table in insertion (rowid) order: (term, document_id)
pairs, as created by wp.py lines 284-289 with no uniqueness constraint. -/
abbrev PostingsDB := List (String × String)

/-- The query SELECT document_id FROM postings WHERE term = ? (wp.py lines 219
and 275): document ids of the rows whose term matches, in row order. -/
def postingList (db : PostingsDB) (term : String) : List String :=
  (db.filter (fun r => r.1 == term)).map (fun r => r.2)

/-- Rows inserted for one document (title, text) by the inner loop of
Index.generate (wp.py lines 297-305): one (term, title) row per token of the
body text passing the noun filter. -/
def generateRows (tok : String → List Token) (doc : String × String) :
    List (String × String) :=
  ((tok doc.2).filter nounFilter).map (fun n => (n.surface, doc.1))

/-- Document loop of Index.generate (wp.py lines 291-306): the counter i
starts at 0 and the loop breaks as soon as i exceeds 10, so at most the first
11 enumerated documents are processed; rows are appended to the table. -/
def generateLoop (tok : String → List Token) :
    Nat → List (String × String) → PostingsDB → PostingsDB
  | _, [], db => db
  | i, d :: rest, db =>
    if i > 10 then db
    else generateLoop tok (i + 1) rest (db ++ generateRows tok d)

/-- Index.generate (wp.py lines 283-311): CREATE TABLE IF NOT EXISTS keeps the
rows of any previous build, then the document loop appends posting rows. The
collection is given as the list of (title, body text) pairs its enumeration
yields. -/
def generate (tok : String → List Token) (docs : List (String × String))
    (db : PostingsDB) : PostingsDB :=
  generateLoop tok 0 docs db

/-- Index.calc_tf (wp.py lines 249-258): tokenizes the given string and, for
each entry of terms, counts the tokens whose surface equals it. No noun
filtering is applied here, and the argument doc is whatever string the caller
passes (Index.search passes the raw query, or a candidate document id). -/
def calc_tf (tok : String → List Token) (doc : String) (terms : List String) :
    List Nat :=
  terms.map (fun term => ((tok doc).filter (fun n => n.surface == term)).length)

/-- Index.calc_idf (wp.py lines 260-268): the call to cal_df is commented out
and df is the hardcoded constant 3; the Python 2 expression N / df
floor-divides two ints, so every component equals mlog (N / 3) independently
of the term. -/
def calc_idf (mlog : Nat → ℚ) (N : Nat) (terms : List String) : List ℚ :=
  terms.map (fun _ => mlog (N / 3))

/-- Index.cal_df (wp.py lines 270-281): the length of the posting list of the
term, i.e. its true document-frequency count over the stored rows. -/
def cal_df (db : PostingsDB) (term : String) : Nat :=
  (postingList db term).length

/-- Componentwise product np.array(tf) * np.array(idf) (wp.py lines 231 and
238); both vectors always have length equal to the number of terms. -/
def zipMul (tf : List Nat) (idf : List ℚ) : List ℚ :=
  List.zipWith (fun a b => (a : ℚ) * b) tf idf

/-- np.dot of two vectors of the same length. -/
def dotProd (u v : List ℚ) : ℚ :=
  (List.zipWith (fun a b => a * b) u v).sum

/-- Squared euclidean norm: np.linalg.norm v is the real square root of
normSq v, so np.linalg.norm v = 0 exactly when normSq v = 0. -/
def normSq (v : List ℚ) : ℚ :=
  (v.map (fun x => x * x)).sum

/-- Loop body of the term loop of Index.search (wp.py lines 206-228), applied
to one token. A noun token appends its surface to terms, refreshes goal with
its posting list, and updates the running set set_return_goal; the branch
"if not set_return_goal" tests emptiness of the running set, so an empty
running intersection is replaced by the next posting set instead of staying
empty. The accumulator is (terms, set_return_goal, goal), with goal = none
while the variable is still undefined. -/
def searchStep (db : PostingsDB)
    (acc : List String × Finset String × Option (List String)) (n : Token) :
    List String × Finset String × Option (List String) :=
  if nounFilter n then
    (acc.1 ++ [n.surface],
     (if acc.2.1 = ∅ then (postingList db n.surface).toFinset
      else (postingList db n.surface).toFinset ∩ acc.2.1),
     some (postingList db n.surface))
  else acc

/-- State after the whole term loop of Index.search: terms, the candidate set
set_return_goal, and the goal list left over from the last noun token. -/
def searchScan (db : PostingsDB) (toks : List Token) :
    List String × Finset String × Option (List String) :=
  toks.foldl (searchStep db) ([], ∅, none)

/-- Python max over a list of floats, none for the empty list (max of an
empty sequence raises ValueError). -/
def listMax : List ℚ → Option ℚ
  | [] => none
  | x :: xs => some (xs.foldl max x)

/-- cos_theta.index(max(cos_theta)) (wp.py line 246): the index of the first
occurrence of the maximum value, none when the list is empty. -/
def argmaxIdx (l : List ℚ) : Option Nat :=
  match listMax l with
  | none => none
  | some m => some (l.indexOf m)

/-- Uncaught Python exceptions Index.search can raise: IndexError from
terms[0] on an empty terms list, ValueError from max of an empty cos_theta,
NameError from reading goal when the loop body never ran. -/
inductive PyErr where
  | indexError
  | valueError
  | nameError
deriving DecidableEq, Repr

/-- Index.search (wp.py lines 202-247). After the term loop, the query vector
and one vector per candidate (iterated in the set order enum) are built as
tf * idf componentwise; cosine values are dot / norm(v_q) / norm(v_doc); the
source then evaluates terms[0] (IndexError if terms is empty), takes the
index of the maximum of cos_theta (ValueError if empty) and returns
goal[max_index], indexing the posting list of the LAST term rather than the
candidate set. -/
def search (tok : String → List Token) (mlog : Nat → ℚ) (sqrt : ℚ → ℚ)
    (enum : Finset String → List String) (db : PostingsDB) (N : Nat)
    (query : String) : Except PyErr String :=
  let scan := searchScan db (tok query)
  let terms := scan.1
  let v_q := zipMul (calc_tf tok query terms) (calc_idf mlog N terms)
  let v_docs := (enum scan.2.1).map
    (fun cid => zipMul (calc_tf tok cid terms) (calc_idf mlog N terms))
  let cos_theta := v_docs.map
    (fun vd => dotProd v_q vd / sqrt (normSq v_q) / sqrt (normSq vd))
  if terms = [] then Except.error PyErr.indexError
  else
    match argmaxIdx cos_theta with
    | none => Except.error PyErr.valueError
    | some maxIdx =>
      match scan.2.2 with
      | none => Except.error PyErr.nameError
      | some goal =>
        match goal[maxIdx]? with
        | none => Except.error PyErr.indexError
        | some d => Except.ok d

/-- Divisions executed at wp.py line 242: one per candidate, with denominator
np.linalg.norm(v_q) * np.linalg.norm(v_doc); a denominator is zero exactly
when the query vector or that candidate vector has zero squared norm. -/
def searchDividesByZero (tok : String → List Token) (mlog : Nat → ℚ)
    (db : PostingsDB) (N : Nat) (query : String) : Prop :=
  let scan := searchScan db (tok query)
  ∃ cid ∈ scan.2.1,
    normSq (zipMul (calc_tf tok query scan.1) (calc_idf mlog N scan.1)) = 0 ∨
    normSq (zipMul (calc_tf tok cid scan.1) (calc_idf mlog N scan.1)) = 0

/-- Mutable state of a WikipediaCollection instance: the _cached_num_documents
attribute initialized to None (wp.py line 99). -/
structure CollState where
  cachedNumDocuments : Option Nat
deriving DecidableEq, Repr

/-- WikipediaCollection.num_documents (wp.py lines 147-159). The argument
dbCount is the value SELECT COUNT(*) FROM articles would return at call time;
the returned Bool records whether the SQL query was executed during this call,
and the returned CollState is the instance state after the call. -/
def num_documents (dbCount : Nat) (s : CollState) : Nat × Bool × CollState :=
  match s.cachedNumDocuments with
  | none => (dbCount, true, ⟨some dbCount⟩)
  | some n => (n, false, s)

/-- Specification-side definition, from the claim wording: the number of
occurrences of a term as a content (noun) token of a text. -/
def spec_tf (tok : String → List Token) (text : String) (term : String) : Nat :=
  ((tok text).filter (fun n => nounFilter n && n.surface == term)).length

/-- Specification-side definition, from the claim wording: the intersection
of the document-id sets of the posting lists of all the query terms. -/
def specCandidates (db : PostingsDB) (terms : List String) : Finset String :=
  match terms with
  | [] => ∅
  | t :: ts =>
    ts.foldl (fun acc u => acc ∩ (postingList db u).toFinset)
      (postingList db t).toFinset

/-- Concrete test tokenizer used for the failing inputs: a deterministic map
from a few fixed strings to token lists; every other string (in particular
every document id used as a title) tokenizes to the empty list. -/
def tokC : String → List Token := fun s =>
  if s = "Q" then [⟨"t1", true, "名詞"⟩, ⟨"t2", true, "名詞"⟩]
  else if s = "noNoun" then [⟨"no", true, "助詞"⟩]
  else if s = "zq" then [⟨"zzz", true, "名詞"⟩]
  else if s = "catq" then [⟨"cat", true, "名詞"⟩]
  else if s = "w" then [⟨"w", true, "名詞"⟩]
  else if s = "catcat" then [⟨"cat", true, "名詞"⟩, ⟨"cat", true, "名詞"⟩]
  else []

/-- Postings table with df(t1) = 1 (document B) and df(t2) = 2 (documents A
and B): the AND candidate set of a query with terms t1, t2 is the singleton
set containing B. -/
def dbC1 : PostingsDB := [("t1", "B"), ("t2", "A"), ("t2", "B")]

/-- Postings table where t1 has an empty posting list and t2 appears in the
single document A. -/
def dbC4 : PostingsDB := [("t2", "A")]

/-- Postings table with a single posting: term cat occurs in document B. -/
def dbC8 : PostingsDB := [("cat", "B")]

/-- Collection of one document D1 whose body is the single noun w. -/
def docs1 : List (String × String) := [("D1", "w")]

/-- Collection of twelve documents D1 .. D12, each with body the noun w. -/
def docs12 : List (String × String) :=
  [("D1", "w"), ("D2", "w"), ("D3", "w"), ("D4", "w"), ("D5", "w"),
   ("D6", "w"), ("D7", "w"), ("D8", "w"), ("D9", "w"), ("D10", "w"),
   ("D11", "w"), ("D12", "w")]

/-- C2: the claim states that the idf used during scoring is ln(N / df(ti))
with df(ti) the true document frequency read from the index, and that
df1 < df2 implies idf(t1) > idf(t2). In the code df is the hardcoded
constant 3 (wp.py line 266, with the cal_df call commented out at line 265):
on a table where t1 has document frequency 1 and t2 document frequency 2,
calc_idf still assigns both terms the identical value mlog (N / 3), for every
logarithm function and every corpus size, so the strict monotonicity the
claim requires fails. -/
theorem C2_idf_constant_placeholder (mlog : Nat → ℚ) (N : Nat) :
    cal_df dbC1 "t1" = 1 ∧ cal_df dbC1 "t2" = 2 ∧
    calc_idf mlog N ["t1", "t2"] = [mlog (N / 3), mlog (N / 3)] := by
  refine ⟨by decide, by decide, rfl⟩

/-- C5: the claim states that Index.generate processes every document of the
collection regardless of its size. The loop counter check at wp.py lines
293-295 breaks after 11 documents: on a twelve-document collection whose
twelfth document D12 contains the noun w, document D11 gets its posting but
no posting row for D12 is ever emitted. -/
theorem C5_generate_stops_after_eleven_documents :
    ("D12", "w") ∈ docs12 ∧
    ("w", "D11") ∈ generate tokC docs12 [] ∧
    ("w", "D12") ∉ generate tokC docs12 [] := by
  decide

/-- C6: the claim states that running Index.generate twice leaves posting
lists identical to running it once. The code appends without clearing (CREATE
TABLE IF NOT EXISTS followed by plain INSERTs, wp.py lines 284-306): on a
one-document collection the second build duplicates the posting row, and the
posting list of w doubles in length. -/
theorem C6_rebuild_not_idempotent :
    generate tokC docs1 (generate tokC docs1 []) ≠ generate tokC docs1 [] ∧
    postingList (generate tokC docs1 (generate tokC docs1 [])) "w" =
      ["D1", "D1"] ∧
    postingList (generate tokC docs1 []) "w" = ["D1"] := by
  decide

/-- C7: the claim states that the document vector component for term ti and
candidate d is tf(ti, d) * idf(ti) with tf(ti, d) the number of occurrences
of ti as a content token of the body text of d. Index.search instead calls
calc_tf on the candidate id string itself (wp.py line 238): for a document
with id B and body catcat containing the noun cat twice, the spec-side term
frequency is 2 but calc_tf tokenizes the id B, counts 0, and the resulting
vector component is 0 for every logarithm and corpus size. -/
theorem C7_doc_vector_uses_id_not_body (mlog : Nat → ℚ) (N : Nat) :
    spec_tf tokC "catcat" "cat" = 2 ∧
    calc_tf tokC "B" ["cat"] = [0] ∧
    zipMul (calc_tf tokC "B" ["cat"]) (calc_idf mlog N ["cat"]) = [0] := by
  refine ⟨by decide, by decide, ?_⟩
  simp [zipMul, calc_tf, calc_idf, tokC]

/-- C10: num_documents runs the COUNT query only when the cache is empty and
afterwards returns the cached value. Starting from a fresh instance, the
first call with database count c1 queries the database and returns c1; a
second call, made after the database count has changed to an arbitrary c2,
does not query and still returns c1, leaving the state unchanged. -/
theorem C10_num_documents_cached (c1 c2 : Nat) :
    (num_documents c1 ⟨none⟩).1 = c1 ∧
    (num_documents c1 ⟨none⟩).2.1 = true ∧
    (num_documents c2 (num_documents c1 ⟨none⟩).2.2).1 = c1 ∧
    (num_documents c2 (num_documents c1 ⟨none⟩).2.2).2.1 = false ∧
    (num_documents c2 (num_documents c1 ⟨none⟩).2.2).2.2 =
      (num_documents c1 ⟨none⟩).2.2 := by
  exact ⟨rfl, rfl, rfl, rfl, rfl⟩

/-- Canonical enumeration of a finite set of strings in increasing order: one
concrete choice of the implementation-defined iteration order of a Python
set, used to instantiate witnesses. -/
def sortedEnum (s : Finset String) : List String :=
  s.sort (· ≤ ·)

lemma sortedEnum_valid : ∀ s : Finset String,
    (sortedEnum s).Nodup ∧ ∀ x, x ∈ sortedEnum s ↔ x ∈ s :=
  fun s => ⟨Finset.sort_nodup _ s, fun _ => Finset.mem_sort _⟩

lemma enum_empty (enum : Finset String → List String)
    (h : ∀ s : Finset String, (enum s).Nodup ∧ ∀ x, x ∈ enum s ↔ x ∈ s) :
    enum ∅ = [] := by
  cases hl : enum ∅ with
  | nil => rfl
  | cons a t =>
    have ha : a ∈ enum ∅ := by rw [hl]; exact List.mem_cons_self a t
    have := ((h ∅).2 a).mp ha
    simp at this

lemma enum_singleton (enum : Finset String → List String)
    (h : ∀ s : Finset String, (enum s).Nodup ∧ ∀ x, x ∈ enum s ↔ x ∈ s)
    (b : String) : enum {b} = [b] := by
  have hnd := (h {b}).1
  have hm := (h {b}).2
  cases hl : enum {b} with
  | nil =>
    have hb : b ∈ enum {b} := (hm b).mpr (Finset.mem_singleton_self b)
    rw [hl] at hb
    simp at hb
  | cons a t =>
    have ha : a = b := by
      have : a ∈ enum {b} := by rw [hl]; exact List.mem_cons_self a t
      simpa using (hm a).mp this
    cases t with
    | nil => rw [ha]
    | cons c u =>
      have hc : c = b := by
        have : c ∈ enum {b} := by rw [hl]; simp
        simpa using (hm c).mp this
      rw [hl, ha, hc] at hnd
      simp at hnd

lemma argmaxIdx_singleton (x : ℚ) : argmaxIdx [x] = some 0 := by
  simp [argmaxIdx, listMax, List.indexOf_cons_self]

lemma foldl_searchStep_fst (db : PostingsDB) (toks : List Token) :
    ∀ acc, (toks.foldl (searchStep db) acc).1 =
      acc.1 ++ (toks.filter nounFilter).map Token.surface := by
  induction toks with
  | nil => intro acc; simp
  | cons n rest ih =>
    intro acc
    by_cases h : nounFilter n
    · simp only [List.foldl_cons, List.filter_cons, h, List.map_cons, ih,
        searchStep, if_pos h]
      simp
    · simp only [List.foldl_cons, List.filter_cons, h, ih, searchStep,
        if_neg h]
      simp [h]

lemma mem_generateLoop (tok : String → List Token) :
    ∀ (docs : List (String × String)) (i : Nat) (db : PostingsDB)
      (row : String × String), row ∈ generateLoop tok i docs db →
      row ∈ db ∨ ∃ d ∈ docs, row ∈ generateRows tok d := by
  intro docs
  induction docs with
  | nil => intro i db row h; exact Or.inl h
  | cons d rest ih =>
    intro i db row h
    rw [generateLoop] at h
    by_cases hi : i > 10
    · rw [if_pos hi] at h
      exact Or.inl h
    · rw [if_neg hi] at h
      rcases ih (i + 1) _ row h with h1 | ⟨d2, hd2, hrow⟩
      · rcases List.mem_append.mp h1 with h2 | h2
        · exact Or.inl h2
        · exact Or.inr ⟨d, List.mem_cons_self d rest, h2⟩
      · exact Or.inr ⟨d2, List.mem_cons_of_mem d hd2, hrow⟩

/-- C1: the claim states that for a non-empty candidate set, Index.search
returns the candidate of maximal cosine similarity, deterministically. On the
table with t1 in document B and t2 in documents A and B, the query with terms
t1, t2 has candidate set exactly the singleton B, so the claim requires B to
be returned; but wp.py line 247 indexes goal, the posting list of the last
term t2, namely the list A, B, with the argmax position 0, and returns A,
which is not in the candidate set at all. This holds for every logarithm,
square root and set-iteration order. -/
theorem C1_search_returns_non_candidate (mlog : Nat → ℚ) (sqrt : ℚ → ℚ)
    (enum : Finset String → List String)
    (henum : ∀ s : Finset String, (enum s).Nodup ∧ ∀ x, x ∈ enum s ↔ x ∈ s) :
    search tokC mlog sqrt enum dbC1 5 "Q" = Except.ok "A" ∧
    (searchScan dbC1 (tokC "Q")).2.1 = {"B"} ∧
    "A" ∉ (searchScan dbC1 (tokC "Q")).2.1 := by
  have hscan : searchScan dbC1 (tokC "Q") =
      (["t1", "t2"], ({"B"} : Finset String), some ["A", "B"]) := by decide
  have he := enum_singleton enum henum "B"
  refine ⟨?_, by rw [hscan], by rw [hscan]; decide⟩
  unfold search
  rw [hscan]
  simp only [he, List.map_cons, List.map_nil]
  rw [argmaxIdx_singleton]
  rfl

/-- Witness for C1 at the concrete iteration order sortedEnum and constant
interpretations of the abstract logarithm and square root. -/
theorem C1_search_returns_non_candidate_witness :
    search tokC (fun _ => 0) (fun _ => 0) sortedEnum dbC1 5 "Q" =
      Except.ok "A" ∧
    (searchScan dbC1 (tokC "Q")).2.1 = {"B"} ∧
    "A" ∉ (searchScan dbC1 (tokC "Q")).2.1 :=
  C1_search_returns_non_candidate (fun _ => 0) (fun _ => 0) sortedEnum
    sortedEnum_valid

/-- C3: the claim states that a query with no content terms, or whose
candidate intersection is empty (for instance when every query term is absent
from the index), yields a clean no-match result and never an internal error.
In the code, a query with no noun token leaves terms empty and terms[0] at
wp.py line 244 raises IndexError; a query whose only term zzz is absent from
the index leaves cos_theta empty and max(cos_theta) at line 246 raises
ValueError. -/
theorem C3_no_match_crashes (mlog : Nat → ℚ) (sqrt : ℚ → ℚ)
    (enum : Finset String → List String)
    (henum : ∀ s : Finset String, (enum s).Nodup ∧ ∀ x, x ∈ enum s ↔ x ∈ s) :
    search tokC mlog sqrt enum dbC1 5 "noNoun" =
      Except.error PyErr.indexError ∧
    search tokC mlog sqrt enum dbC1 5 "zq" =
      Except.error PyErr.valueError := by
  have h0 : searchScan dbC1 (tokC "noNoun") =
      (([] : List String), (∅ : Finset String), none) := by decide
  have h1 : searchScan dbC1 (tokC "zq") =
      (["zzz"], (∅ : Finset String), some []) := by decide
  have he := enum_empty enum henum
  constructor
  · rfl
  · unfold search
    rw [h1]
    simp only [he, List.map_nil]
    rfl

/-- Witness for C3 at the concrete iteration order sortedEnum and constant
interpretations of the abstract logarithm and square root. -/
theorem C3_no_match_crashes_witness :
    search tokC (fun _ => 0) (fun _ => 0) sortedEnum dbC1 5 "noNoun" =
      Except.error PyErr.indexError ∧
    search tokC (fun _ => 0) (fun _ => 0) sortedEnum dbC1 5 "zq" =
      Except.error PyErr.valueError :=
  C3_no_match_crashes (fun _ => 0) (fun _ => 0) sortedEnum sortedEnum_valid

/-- C4: the claim states that the candidate set equals the intersection of
the posting-list document-id sets of all query terms, and in particular is
empty when some term has an empty posting list. On the table where t1 has an
empty posting list and t2 appears in document A, the spec-side intersection
is empty, but the code computes the singleton A: the emptiness test
"if not set_return_goal" at wp.py line 225, meant as a first-iteration
sentinel, also fires when the running intersection is genuinely empty and
replaces it with the next posting set. -/
theorem C4_intersection_sentinel_bug :
    postingList dbC4 "t1" = [] ∧
    (searchScan dbC4 (tokC "Q")).2.1 = {"A"} ∧
    specCandidates dbC4 ["t1", "t2"] = ∅ := by
  decide

/-- C8: the claim states that zero-norm vectors are guarded so that no
division by zero occurs in the cosine computation. On the table with the
single posting (cat, B), the query catq has candidate B; the vector of B is
built from calc_tf applied to the id B, whose tokenization contains no cat
token, so the vector is all zeros and has zero squared norm, and the division
at wp.py line 242 divides by zero for every logarithm function. -/
theorem C8_division_by_zero_occurs (mlog : Nat → ℚ) :
    searchDividesByZero tokC mlog dbC8 5 "catq" := by
  have hscan : searchScan dbC8 (tokC "catq") =
      (["cat"], ({"B"} : Finset String), some ["B"]) := by decide
  unfold searchDividesByZero
  rw [hscan]
  refine ⟨"B", Finset.mem_singleton_self "B", Or.inr ?_⟩
  simp [calc_tf, calc_idf, zipMul, normSq, tokC]

/-- C9: only noun-tagged tokens are used. Every row emitted by Index.generate
into an empty store comes from a token of some document body that passes the
noun filter, with the row holding that token surface and the document id; and
every term extracted by the term loop of Index.search is the surface of some
noun-filtered token of the query. -/
theorem C9_only_noun_tokens_used (tok : String → List Token)
    (docs : List (String × String)) (db : PostingsDB) (toks : List Token) :
    (∀ row ∈ generate tok docs [], ∃ d ∈ docs, ∃ n ∈ tok d.2,
        nounFilter n = true ∧ row = (n.surface, d.1)) ∧
    (∀ t ∈ (searchScan db toks).1, ∃ n ∈ toks,
        nounFilter n = true ∧ n.surface = t) := by
  constructor
  · intro row hrow
    rcases mem_generateLoop tok docs 0 [] row hrow with h | ⟨d, hd, hr⟩
    · simp at h
    · refine ⟨d, hd, ?_⟩
      unfold generateRows at hr
      rcases List.mem_map.mp hr with ⟨n, hn, heq⟩
      rcases List.mem_filter.mp hn with ⟨hmem, hfil⟩
      exact ⟨n, hmem, hfil, heq.symm⟩
  · intro t ht
    unfold searchScan at ht
    rw [foldl_searchStep_fst db toks ([], ∅, none)] at ht
    simp only [List.nil_append] at ht
    rcases List.mem_map.mp ht with ⟨n, hn, heq⟩
    rcases List.mem_filter.mp hn with ⟨hmem, hfil⟩
    exact ⟨n, hmem, hfil, heq⟩

/-- Witness for C9: the posting (w, D1) emitted for the one-document
collection docs1 does come from the noun token w of the body of D1. -/
theorem C9_only_noun_tokens_used_witness :
    ∃ d ∈ docs1, ∃ n ∈ tokC d.2, nounFilter n = true ∧
      (("w", "D1") : String × String) = (n.surface, d.1) :=
  (C9_only_noun_tokens_used tokC docs1 [] []).1 ("w", "D1") (by decide)

end Wp
